import Mathlib

/-
  Verification of the SMH Huddle Recordings MCP server
  (server/main.py): a shallow embedding of the request gateway
  `make_api_request` and the two tool operations `list_recordings` and
  `get_recording`, followed by theorems settling the specification claims.

  Modelling conventions:
  * JSON values (`json.loads` results / `json.dumps` inputs) are the
    inductive `Json` below; Python dicts are ordered association lists,
    matching Python 3.7+ insertion order.
  * The network is an oracle `Nat → AttemptResult` giving the outcome the
    HTTP client observes on each 0-indexed attempt.  A response body is a
    raw text plus its JSON parse result (the parser itself is external
    library code, so the parse is part of the oracle).
  * Timeouts are Nat "time units" (the Python floats 30.0 / 60.0 become
    30 / 60); `asyncio.sleep(2 ** attempt)` is recorded as the Nat
    `2 ^ attempt` in a delay trace.
  * A raised Python `Exception(msg)` is an `ApiError`; the `kind` field
    records which `except` branch produced it (the branches are disjoint
    in the source, so this adds no information the code does not have).
  * `json.dumps` is total on `Json`, so the tool operations return the
    `Json` value they would serialize, together with the list of gateway
    calls they issued (`ToolRun`).
-/

set_option linter.unusedVariables false
set_option maxRecDepth 10000

namespace HuddleMCP

/-- JSON values as produced by `json.loads`. Numbers are modelled as
integers; no claim depends on fractional values. -/
inductive Json where
  | null
  | bool (b : Bool)
  | num (n : Int)
  | str (s : String)
  | arr (elems : List Json)
  | obj (entries : List (String × Json))

/-- Lookup of a key in a JSON object (Python `data[k]` / `k in data` for a
dict); `none` on non-objects or missing keys. -/
def Json.lookup : Json → String → Option Json
  | .obj entries, k => entries.lookup k
  | _, _ => none

mutual

/-- Python `repr` of a JSON value, as used when a non-string value is
interpolated inside an f-string via `str` on containers. String escaping
inside repr is not modelled (no claim depends on it). -/
def pyRepr : Json → String
  | .null => "None"
  | .bool true => "True"
  | .bool false => "False"
  | .num n => toString n
  | .str s => "\x27" ++ s ++ "\x27"
  | .arr elems => "[" ++ pyReprList elems ++ "]"
  | .obj entries => "\x7b" ++ pyReprEntries entries ++ "\x7d"

/-- Comma-joined `repr`s of list elements. -/
def pyReprList : List Json → String
  | [] => ""
  | [x] => pyRepr x
  | x :: xs => pyRepr x ++ ", " ++ pyReprList xs

/-- Comma-joined `repr`s of dict entries. -/
def pyReprEntries : List (String × Json) → String
  | [] => ""
  | [(k, v)] => "\x27" ++ k ++ "\x27: " ++ pyRepr v
  | (k, v) :: xs => "\x27" ++ k ++ "\x27: " ++ pyRepr v ++ ", " ++ pyReprEntries xs

end

/-- Python `str()` of a JSON value, as used by f-string interpolation
(`f": {error_data['message']}"`). -/
def pyStr : Json → String
  | .str s => s
  | j => pyRepr j

/-- The ASCII whitespace characters Python's `str.strip()` removes
(space, tab, newline, carriage return, vertical tab, form feed); ids in
the claims are ASCII, so wider Unicode whitespace is not modelled. -/
def isPySpace (c : Char) : Bool :=
  c == ' ' || c == '\t' || c == '\n' || c == '\r' || c == '\x0b' || c == '\x0c'

/-- Python `s.strip()`: drop leading and trailing whitespace. -/
def pyStrip (s : String) : String :=
  String.mk (((s.toList.dropWhile isPySpace).reverse.dropWhile isPySpace).reverse)

/-- An HTTP response body: the raw text (`response.text`) and the result
of `response.json()` (`none` when parsing raises `json.JSONDecodeError`). -/
structure Body where
  text : String
  parsed : Option Json

/-- Outcome of one attempt of the `httpx` request, i.e. which `except`
branch (or the success path) the `try` body reaches:
* `timeout`: `httpx.TimeoutException`;
* `httpStatus`: `raise_for_status()` raised `httpx.HTTPStatusError`
  (non-2xx status), carrying the status code and the response body;
* `requestError`: `httpx.RequestError` (connection/network failure);
* `success`: 2xx status with the given body (whose `parsed` field decides
  whether `response.json()` succeeds);
* `unexpected`: any other exception, caught by the bare `except Exception`. -/
inductive AttemptResult where
  | timeout
  | httpStatus (code : Nat) (body : Body)
  | requestError (msg : String)
  | success (body : Body)
  | unexpected (msg : String)

/-- Classification of a raised `Exception` by the `except` branch of
`make_api_request` that raised it. `exhausted` is the final
`raise Exception("Failed to complete request after all retries")`. -/
inductive ErrorKind where
  | timeout
  | httpStatus
  | network
  | malformed
  | unexpected
  | exhausted
  deriving DecidableEq

/-- A raised exception: its kind and its message string. -/
structure ApiError where
  kind : ErrorKind
  msg : String
  deriving DecidableEq

/-- Result of `make_api_request`: the returned JSON on success, or the
raised exception. -/
inductive ApiResult where
  | ok (data : Json)
  | err (e : ApiError)

/-- The kind of the error, when the result is an error. -/
def ApiResult.errKind : ApiResult → Option ErrorKind
  | .ok _ => none
  | .err e => some e.kind

/-- Trace of one `make_api_request` run: how many attempts were started,
the `asyncio.sleep` delays performed (in order), and the result. -/
structure ApiTrace where
  attemptsUsed : Nat
  delays : List Nat
  result : ApiResult

def MAX_RETRIES : Nat := 3

def DEFAULT_TIMEOUT : Nat := 30

/-- Outcome of the inner `try` block of the `HTTPStatusError` handler:
`error_data = e.response.json()` followed by `if "message" in error_data:
error_msg += f": {error_data['message']}"`. -/
inductive MsgProbe where
  /-- `"message" in error_data` was true and `error_data['message']`
  evaluated to `v` (only possible for a dict). -/
  | found (v : Json)
  /-- `"message" in error_data` evaluated to `False`; nothing appended. -/
  | absent
  /-- an exception was raised (`.json()` parse failure, `in` on a
  non-container, or subscripting a list/str with a string key), caught by
  the bare `except:`, so the truncated raw body is appended. -/
  | raised

/-- Python `"message" == x` for a JSON value `x`: true exactly for the
string `"message"` (a str never equals a number, bool, None, list or
dict). Used for `in` on a parsed JSON list. -/
def isMessageStr : Json → Bool
  | .str s => s == "message"
  | _ => false

/-- Semantics of the probe, following Python semantics of `in` and `[...]`
per runtime type of the parsed body. For a string, `"message" in s` is
substring containment, modelled via `splitOn` (the split has more than one
part iff the pattern occurs). -/
def probeMessage : Option Json → MsgProbe
  | none => .raised
  | some (.obj entries) =>
      match entries.lookup "message" with
      | some v => .found v
      | none => .absent
  | some (.arr elems) =>
      if elems.any isMessageStr then .raised else .absent
  | some (.str s) =>
      if 1 < (s.splitOn "message").length then .raised else .absent
  | some (.num _) => .raised
  | some (.bool _) => .raised
  | some .null => .raised

/-- The message of the exception raised by the `httpx.HTTPStatusError`
handler (main.py lines 106-115). -/
def statusErrorMsg (code : Nat) (body : Body) : String :=
  let base := "API returned error status " ++ toString code
  match probeMessage body.parsed with
  | .found v => base ++ ": " ++ pyStr v
  | .absent => base
  | .raised => base ++ ": " ++ body.text.take 200

/-- The `for attempt in range(MAX_RETRIES)` loop of `make_api_request`,
with `attempt` the current 0-indexed attempt, `remaining` the number of
iterations the `range` still yields, and `delays` the sleeps performed so
far. Each iteration either returns (`.ok`), raises (`.err`), or — for a
retryable failure on a non-final attempt — sleeps `2 ^ attempt` and
continues; falling out of the loop raises the `exhausted` error. -/
def loopFrom (o : Nat → AttemptResult) (timeout : Nat) :
    Nat → Nat → List Nat → ApiTrace
  | attempt, 0, delays =>
      ⟨attempt, delays,
        .err ⟨.exhausted, "Failed to complete request after all retries"⟩⟩
  | attempt, remaining + 1, delays =>
      match o attempt with
      | .success body =>
          match body.parsed with
          | some data => ⟨attempt + 1, delays, .ok data⟩
          | none =>
              ⟨attempt + 1, delays,
                .err ⟨.malformed, "API returned invalid JSON response"⟩⟩
      | .timeout =>
          if attempt = MAX_RETRIES - 1 then
            ⟨attempt + 1, delays,
              .err ⟨.timeout,
                "Request timed out after " ++ toString timeout ++
                  " seconds. The API server may be slow or unreachable."⟩⟩
          else
            loopFrom o timeout (attempt + 1) remaining (delays ++ [2 ^ attempt])
      | .httpStatus code body =>
          ⟨attempt + 1, delays, .err ⟨.httpStatus, statusErrorMsg code body⟩⟩
      | .requestError m =>
          if attempt = MAX_RETRIES - 1 then
            ⟨attempt + 1, delays,
              .err ⟨.network, "Failed to connect to API: " ++ m⟩⟩
          else
            loopFrom o timeout (attempt + 1) remaining (delays ++ [2 ^ attempt])
      | .unexpected m =>
          ⟨attempt + 1, delays,
            .err ⟨.unexpected, "Unexpected error occurred: " ++ m⟩⟩

/-- `make_api_request(method, endpoint, params, timeout)` run against the
oracle `o`. The method, endpoint and params determine the outbound HTTP
request, which the oracle abstracts, so only `timeout` and `o` shape the
trace; callers record them in their `GatewayCall`. Python's default
argument `timeout=DEFAULT_TIMEOUT` is supplied explicitly at call sites
that omit it. -/
def make_api_request (method endpoint : String) (params : List (String × Json))
    (timeout : Nat) (o : Nat → AttemptResult) : ApiTrace :=
  loopFrom o timeout 0 MAX_RETRIES []

/-- One outbound call issued to the request gateway. -/
structure GatewayCall where
  method : String
  endpoint : String
  params : List (String × Json)
  timeout : Nat

/-- Result of one tool invocation: the JSON value the tool serializes with
`json.dumps` and returns, plus the gateway calls it issued. -/
structure ToolRun where
  output : Json
  calls : List GatewayCall

/-- Query parameters built by `list_recordings` (main.py lines 172-180):
`skip`, `limit`, `simplified=True`, then `period` appended only when
`period` is truthy (non-None and non-empty). -/
def listParams (skip limit : Int) (period : Option String) :
    List (String × Json) :=
  [("skip", Json.num skip), ("limit", Json.num limit),
    ("simplified", Json.bool true)] ++
    (match period with
     | some p => if p = "" then [] else [("period", Json.str p)]
     | none => [])

/-- `list_recordings(skip, limit, period)` run against network oracle `o`;
`now` is the `datetime.utcnow().isoformat()` timestamp captured on the
error path. -/
def list_recordings (skip limit : Int) (period : Option String)
    (now : String) (o : Nat → AttemptResult) : ToolRun :=
  if skip < 0 then
    ⟨.obj [("error", .str "Invalid parameter"),
           ("message", .str "skip must be non-negative")], []⟩
  else if limit < 1 ∨ 100 < limit then
    ⟨.obj [("error", .str "Invalid parameter"),
           ("message", .str "limit must be between 1 and 100")], []⟩
  else
    let params := listParams skip limit period
    let call : GatewayCall := ⟨"GET", "/recordings", params, DEFAULT_TIMEOUT⟩
    match (make_api_request "GET" "/recordings" params DEFAULT_TIMEOUT o).result with
    | .ok data => ⟨data, [call]⟩
    | .err e =>
        ⟨.obj [("error", .str "Failed to fetch recordings"),
               ("message", .str e.msg),
               ("timestamp", .str now)], [call]⟩

/-- The fixed `_usage_hint` guidance text (main.py lines 241-244). -/
def usageHintText : String :=
  "Create summaries from the diarized transcript. Format: Name, What was done, Problems, Plans, Agreements"

/-- Python dict assignment `d[k] = v` on an ordered dict: replaces the
value in place when the key exists, otherwise appends the pair. -/
def dictInsert (entries : List (String × Json)) (k : String) (v : Json) :
    List (String × Json) :=
  if entries.any (fun e => e.1 == k) then
    entries.map (fun e => if e.1 == k then (k, v) else e)
  else entries ++ [(k, v)]

/-- Response shaping of `get_recording` (main.py lines 240-244): when the
payload is a dict containing a `transcript` key, set `_usage_hint`. -/
def injectHint (data : Json) : Json :=
  match data with
  | .obj entries =>
      if entries.any (fun e => e.1 == "transcript") then
        .obj (dictInsert entries "_usage_hint" (.str usageHintText))
      else .obj entries
  | other => other

/-- `get_recording(recording_id)` run against network oracle `o`; `now` is
the timestamp captured on the error path. -/
def get_recording (recording_id : String) (now : String)
    (o : Nat → AttemptResult) : ToolRun :=
  if pyStrip recording_id = "" then
    ⟨.obj [("error", .str "Invalid parameter"),
           ("message", .str "recording_id is required and cannot be empty")], []⟩
  else
    let rid := pyStrip recording_id
    let endpoint := "/recordings/" ++ rid
    let params := [("simplified", Json.bool true)]
    let call : GatewayCall := ⟨"GET", endpoint, params, 60⟩
    match (make_api_request "GET" endpoint params 60 o).result with
    | .ok data => ⟨injectHint data, [call]⟩
    | .err e =>
        ⟨.obj [("error", .str "Failed to fetch recording"),
               ("message", .str e.msg),
               ("recording_id", .str rid),
               ("timestamp", .str now)], [call]⟩

/-- A JSON error payload as the tool operations produce it: an object
carrying an `error` label and a `message`. -/
def errorShaped (j : Json) : Bool :=
  (j.lookup "error").isSome && (j.lookup "message").isSome

/-! ### Concrete oracles used by witnesses and counterexamples -/

/-- Oracle: timeouts on attempts 0 and 1, then a success whose body parses
to the empty JSON object. -/
def oracleTwoTimeouts : Nat → AttemptResult := fun n =>
  if n < 2 then .timeout else .success ⟨"\x7b\x7d", some (.obj [])⟩

/-- Oracle: every attempt yields a 2xx response whose body is not valid
JSON. -/
def oracleBadJson : Nat → AttemptResult := fun _ => .success ⟨"not json", none⟩

/-- Oracle: every attempt yields HTTP 404 with body
`{"message":"not found"}`. -/
def oracle404 : Nat → AttemptResult := fun _ =>
  .httpStatus 404
    ⟨"\x7b\"message\":\"not found\"\x7d",
      some (.obj [("message", .str "not found")])⟩

/-- Oracle: every attempt yields HTTP 404 whose JSON body is an object
with no `message` field. -/
def oracle404NoMessage : Nat → AttemptResult := fun _ =>
  .httpStatus 404
    ⟨"\x7b\"error\":\"nope\"\x7d", some (.obj [("error", .str "nope")])⟩

/-- Oracle: every attempt times out. -/
def oracleAllTimeouts : Nat → AttemptResult := fun _ => .timeout

/-- Oracle: every attempt fails with a connection error. -/
def oracleNetFail : Nat → AttemptResult := fun _ => .requestError "boom"

/-! ### Helper lemmas -/

/-- Every iteration of the retry loop with iterations remaining either
terminates the call or recurses; the fall-through `exhausted` error needs
`remaining = 0`, which the loop invariant `attempt + remaining =
MAX_RETRIES` together with the last-attempt guard never produces. -/
theorem loopFrom_not_exhausted (o : Nat → AttemptResult) (t : Nat) :
    ∀ remaining attempt delays, attempt + remaining = MAX_RETRIES →
      0 < remaining →
      (loopFrom o t attempt remaining delays).result.errKind ≠ some .exhausted := by
  intro remaining
  induction remaining with
  | zero => intro _ _ _ h; omega
  | succ r ih =>
      intro attempt delays hsum _
      cases ho : o attempt with
      | success body =>
          cases hp : body.parsed <;>
            simp [loopFrom, ho, hp, ApiResult.errKind]
      | timeout =>
          by_cases ha : attempt = MAX_RETRIES - 1
          · subst ha; simp [loopFrom, ho, ApiResult.errKind]
          · have hr : 0 < r := by
              simp [MAX_RETRIES] at hsum ha; omega
            simpa [loopFrom, ho, ha] using
              ih (attempt + 1) (delays ++ [2 ^ attempt]) (by omega) hr
      | httpStatus code body =>
          simp [loopFrom, ho, ApiResult.errKind]
      | requestError m =>
          by_cases ha : attempt = MAX_RETRIES - 1
          · subst ha; simp [loopFrom, ho, ApiResult.errKind]
          · have hr : 0 < r := by
              simp [MAX_RETRIES] at hsum ha; omega
            simpa [loopFrom, ho, ha] using
              ih (attempt + 1) (delays ++ [2 ^ attempt]) (by omega) hr
      | unexpected m =>
          simp [loopFrom, ho, ApiResult.errKind]

/-! ### Claims -/

/-- C10: the terminal `raise Exception("Failed to complete request after
all retries")` after the retry loop is unreachable: for every input and
every sequence of attempt outcomes, `make_api_request` never produces the
`exhausted` error — each loop iteration returns, raises immediately, or is
a retryable failure that raises on the last attempt. -/
theorem c10_exhausted_raise_unreachable (method endpoint : String)
    (params : List (String × Json)) (t : Nat) (o : Nat → AttemptResult) :
    (make_api_request method endpoint params t o).result.errKind ≠ some .exhausted :=
  loopFrom_not_exhausted o t MAX_RETRIES 0 [] rfl (by decide)

/-- C4: when attempts 0 and 1 time out and attempt 2 succeeds (with a body
parsing to `data`), `make_api_request` succeeds after exactly 3 attempts
and the recorded backoff delays are exactly `2 ^ attempt`: 1 unit between
attempts 0 and 1, and 2 units between attempts 1 and 2, with no delay
after the final attempt. -/
theorem c4_timeout_retry_backoff (method endpoint : String)
    (params : List (String × Json)) (t : Nat) (o : Nat → AttemptResult)
    (body : Body) (data : Json)
    (h0 : o 0 = .timeout) (h1 : o 1 = .timeout) (h2 : o 2 = .success body)
    (hp : body.parsed = some data) :
    make_api_request method endpoint params t o = ⟨3, [1, 2], .ok data⟩ := by
  simp [make_api_request, MAX_RETRIES, loopFrom, h0, h1, h2, hp]

/-- Witness for C4 at the concrete oracle `oracleTwoTimeouts`. -/
theorem c4_timeout_retry_backoff_witness :
    make_api_request "GET" "/recordings" [] 30 oracleTwoTimeouts =
      ⟨3, [1, 2], .ok (.obj [])⟩ :=
  c4_timeout_retry_backoff "GET" "/recordings" [] 30 oracleTwoTimeouts
    ⟨"\x7b\x7d", some (.obj [])⟩ (.obj []) rfl rfl rfl rfl

/-- C9: an attempt that returns a successful HTTP status whose body is not
valid JSON makes the gateway fail immediately on that attempt with the
malformed-response error "API returned invalid JSON response", performing
no retry (no delay is added and no further attempt is started); in
particular on attempt 0 the whole call fails with 1 attempt used. -/
theorem c9_malformed_json_immediate (method endpoint : String)
    (params : List (String × Json)) (t a r : Nat) (d : List Nat)
    (o : Nat → AttemptResult) (body : Body)
    (h : o a = .success body) (hp : body.parsed = none) :
    loopFrom o t a (r + 1) d =
      ⟨a + 1, d, .err ⟨.malformed, "API returned invalid JSON response"⟩⟩ ∧
    (a = 0 →
      make_api_request method endpoint params t o =
        ⟨1, [], .err ⟨.malformed, "API returned invalid JSON response"⟩⟩) := by
  constructor
  · simp [loopFrom, h, hp]
  · rintro rfl
    simp [make_api_request, MAX_RETRIES, loopFrom, h, hp]

/-- Witness for C9 at the concrete oracle `oracleBadJson`. -/
theorem c9_malformed_json_immediate_witness :
    make_api_request "GET" "/recordings" [] 30 oracleBadJson =
      ⟨1, [], .err ⟨.malformed, "API returned invalid JSON response"⟩⟩ :=
  (c9_malformed_json_immediate "GET" "/recordings" [] 30 0 2 [] oracleBadJson
    ⟨"not json", none⟩ rfl rfl).2 rfl

/-- C3 (amended): an HTTP error status on attempt 0 fails the whole call
immediately — 1 attempt used, no backoff delay — with message
`"API returned error status {code}"` extended by `": {m}"` where `m` is
the body's `message` field when the body is a JSON object containing one,
and by the raw body truncated to 200 characters when the body is not valid
JSON; when the body is valid JSON without an extractable `message` field,
nothing is appended. -/
theorem c3_http_status_immediate (method endpoint : String)
    (params : List (String × Json)) (t a r : Nat) (d : List Nat)
    (o : Nat → AttemptResult) (code : Nat) (body : Body)
    (h : o a = .httpStatus code body) :
    loopFrom o t a (r + 1) d =
      ⟨a + 1, d, .err ⟨.httpStatus, statusErrorMsg code body⟩⟩ ∧
    (a = 0 →
      make_api_request method endpoint params t o =
        ⟨1, [], .err ⟨.httpStatus, statusErrorMsg code body⟩⟩) ∧
    (∀ entries v, body.parsed = some (.obj entries) →
      entries.lookup "message" = some v →
      statusErrorMsg code body =
        "API returned error status " ++ toString code ++ ": " ++ pyStr v) ∧
    (body.parsed = none →
      statusErrorMsg code body =
        "API returned error status " ++ toString code ++ ": " ++
          body.text.take 200) := by
  refine ⟨?_, ?_, ?_, ?_⟩
  · simp [loopFrom, h]
  · rintro rfl
    simp [make_api_request, MAX_RETRIES, loopFrom, h]
  · intro entries v hp hv
    simp [statusErrorMsg, probeMessage, hp, hv]
  · intro hp
    simp [statusErrorMsg, probeMessage, hp]

/-- Oracle: a timeout on attempt 0, then HTTP 404 with body
`{"message":"not found"}` on every later attempt. -/
def oracleTimeoutThen404 : Nat → AttemptResult := fun n =>
  if n = 0 then .timeout
  else
    .httpStatus 404
      ⟨"\x7b\"message\":\"not found\"\x7d",
        some (.obj [("message", .str "not found")])⟩

/-- Witness for C3 (amended): the spec's own example — 404 with body
`{"message":"not found"}` fails on the first attempt with message
"API returned error status 404: not found"; and the same 404 arriving on
attempt 1 (after a timeout on attempt 0) also raises immediately, with no
further attempt or delay. -/
theorem c3_http_status_immediate_witness :
    make_api_request "GET" "/recordings/r1" [] 30 oracle404 =
      ⟨1, [],
        .err ⟨.httpStatus, "API returned error status 404: not found"⟩⟩ ∧
    loopFrom oracleTimeoutThen404 30 1 2 [1] =
      ⟨2, [1],
        .err ⟨.httpStatus, "API returned error status 404: not found"⟩⟩ :=
  ⟨(((c3_http_status_immediate "GET" "/recordings/r1" [] 30 0 2 [] oracle404
      404
      ⟨"\x7b\"message\":\"not found\"\x7d",
        some (.obj [("message", .str "not found")])⟩ rfl).2.1) rfl).trans
    (by rfl),
   ((c3_http_status_immediate "GET" "/recordings/r1" [] 30 1 1 [1]
      oracleTimeoutThen404 404
      ⟨"\x7b\"message\":\"not found\"\x7d",
        some (.obj [("message", .str "not found")])⟩ rfl).1).trans (by rfl)⟩

/-- C3 counterexample: for a 404 whose body is valid JSON *without* a
`message` field, the code produces the bare message
"API returned error status 404" — not the claim's
"API returned error status {code}: {truncated body}". -/
theorem c3_counterexample :
    (make_api_request "GET" "/recordings" [] 30 oracle404NoMessage).result =
      .err ⟨.httpStatus, "API returned error status 404"⟩ ∧
    ("API returned error status 404" : String) ≠
      "API returned error status 404: " ++
        String.take "\x7b\"error\":\"nope\"\x7d" 200 := by
  constructor
  · rfl
  · decide

/-- C7: exhausting all 3 attempts on timeouts raises the timeout-kind
error whose message carries the configured timeout value; exhausting them
on connection errors raises the network-kind error; the timeout is
`DEFAULT_TIMEOUT = 30` time units for the `list_recordings` call (which
omits the argument) and 60 time units for the `get_recording` fetch. -/
theorem c7_retry_exhaustion_kinds (method endpoint : String)
    (params : List (String × Json)) (t : Nat)
    (oT oN o3 : Nat → AttemptResult) (m0 m1 m2 : String)
    (hT0 : oT 0 = .timeout) (hT1 : oT 1 = .timeout) (hT2 : oT 2 = .timeout)
    (hN0 : oN 0 = .requestError m0) (hN1 : oN 1 = .requestError m1)
    (hN2 : oN 2 = .requestError m2)
    (skip limit : Int) (now rid : String)
    (hs : 0 ≤ skip) (hl1 : 1 ≤ limit) (hl2 : limit ≤ 100)
    (hr : pyStrip rid ≠ "") :
    (make_api_request method endpoint params t oT).result =
      .err ⟨.timeout, "Request timed out after " ++ toString t ++
        " seconds. The API server may be slow or unreachable."⟩ ∧
    (make_api_request method endpoint params t oN).result =
      .err ⟨.network, "Failed to connect to API: " ++ m2⟩ ∧
    (list_recordings skip limit none now o3).calls.map GatewayCall.timeout =
      [DEFAULT_TIMEOUT] ∧
    DEFAULT_TIMEOUT = 30 ∧
    (get_recording rid now o3).calls.map GatewayCall.timeout = [60] := by
  have hnskip : ¬ skip < 0 := not_lt.mpr hs
  have hnlimit : ¬ (limit < 1 ∨ 100 < limit) := by omega
  refine ⟨?_, ?_, ?_, rfl, ?_⟩
  · simp [make_api_request, MAX_RETRIES, loopFrom, hT0, hT1, hT2]
  · simp [make_api_request, MAX_RETRIES, loopFrom, hN0, hN1, hN2]
  · rcases hres : (make_api_request "GET" "/recordings"
        (listParams skip limit none) DEFAULT_TIMEOUT o3).result with data | e <;>
      simp [list_recordings, hnskip, hnlimit, hres]
  · rcases hres : (make_api_request "GET" ("/recordings/" ++ pyStrip rid)
        [("simplified", Json.bool true)] 60 o3).result with data | e <;>
      simp [get_recording, hr, hres]

/-- Witness for C7 at concrete oracles and arguments. -/
theorem c7_retry_exhaustion_kinds_witness :
    (make_api_request "GET" "/recordings" [] 30 oracleAllTimeouts).result =
      .err ⟨.timeout, "Request timed out after " ++ toString (30 : Nat) ++
        " seconds. The API server may be slow or unreachable."⟩ ∧
    (make_api_request "GET" "/recordings" [] 30 oracleNetFail).result =
      .err ⟨.network, "Failed to connect to API: " ++ "boom"⟩ ∧
    (list_recordings 0 10 none "ts" oracleAllTimeouts).calls.map
      GatewayCall.timeout = [DEFAULT_TIMEOUT] ∧
    DEFAULT_TIMEOUT = 30 ∧
    (get_recording "r1" "ts" oracleAllTimeouts).calls.map
      GatewayCall.timeout = [60] :=
  c7_retry_exhaustion_kinds "GET" "/recordings" [] 30
    oracleAllTimeouts oracleNetFail oracleAllTimeouts "boom" "boom" "boom"
    rfl rfl rfl rfl rfl rfl 0 10 "ts" "r1"
    (by decide) (by decide) (by decide) (by decide)

/-- C5: a negative `skip` yields the "skip must be non-negative"
validation payload with zero gateway calls; with `skip` non-negative (the
checks run in this order), an out-of-range `limit` yields the "limit must
be between 1 and 100" validation payload with zero gateway calls. -/
theorem c5_list_validation (skip limit : Int) (period : Option String)
    (now : String) (o : Nat → AttemptResult) :
    (skip < 0 →
      list_recordings skip limit period now o =
        ⟨.obj [("error", .str "Invalid parameter"),
               ("message", .str "skip must be non-negative")], []⟩) ∧
    (0 ≤ skip → limit < 1 ∨ 100 < limit →
      list_recordings skip limit period now o =
        ⟨.obj [("error", .str "Invalid parameter"),
               ("message", .str "limit must be between 1 and 100")], []⟩) := by
  constructor
  · intro h
    simp [list_recordings, h]
  · intro hs hl
    simp [list_recordings, not_lt.mpr hs, hl]

/-- Witness for C5 at `skip = -1` and at `limit = 0`. -/
theorem c5_list_validation_witness :
    list_recordings (-1) 10 none "ts" oracleBadJson =
      ⟨.obj [("error", .str "Invalid parameter"),
             ("message", .str "skip must be non-negative")], []⟩ ∧
    list_recordings 0 0 none "ts" oracleBadJson =
      ⟨.obj [("error", .str "Invalid parameter"),
             ("message", .str "limit must be between 1 and 100")], []⟩ :=
  ⟨(c5_list_validation (-1) 10 none "ts" oracleBadJson).1 (by decide),
   (c5_list_validation 0 0 none "ts" oracleBadJson).2 (by decide)
     (Or.inl (by decide))⟩

/-- C6: an empty or whitespace-only `recording_id` yields the
"recording_id is required and cannot be empty" validation payload with
zero gateway calls; any other id issues its gateway call against the
endpoint built from the whitespace-trimmed id. -/
theorem c6_get_validation_and_trim (rid now : String)
    (o : Nat → AttemptResult) :
    (pyStrip rid = "" →
      get_recording rid now o =
        ⟨.obj [("error", .str "Invalid parameter"),
               ("message",
                .str "recording_id is required and cannot be empty")], []⟩) ∧
    (pyStrip rid ≠ "" →
      (get_recording rid now o).calls.map GatewayCall.endpoint =
        ["/recordings/" ++ pyStrip rid]) := by
  constructor
  · intro h
    simp [get_recording, h]
  · intro h
    rcases hres : (make_api_request "GET" ("/recordings/" ++ pyStrip rid)
        [("simplified", Json.bool true)] 60 o).result with data | e <;>
      simp [get_recording, h, hres]

/-- Witness for C6 at a whitespace-only id and at `" r1 "`. -/
theorem c6_get_validation_and_trim_witness :
    get_recording "   " "ts" oracleBadJson =
      ⟨.obj [("error", .str "Invalid parameter"),
             ("message",
              .str "recording_id is required and cannot be empty")], []⟩ ∧
    (get_recording " r1 " "ts" oracleBadJson).calls.map
      GatewayCall.endpoint = ["/recordings/" ++ pyStrip " r1 "] :=
  ⟨(c6_get_validation_and_trim "   " "ts" oracleBadJson).1 (by decide),
   (c6_get_validation_and_trim " r1 " "ts" oracleBadJson).2 (by decide)⟩

/-- C8: for every valid `list_recordings` invocation, the single gateway
call against `/recordings` carries exactly the parameters built by
`listParams`: the given `skip` and `limit`, `simplified = true`, and a
`period` entry exactly when `period` is non-empty (carrying the given
value); when `period` is unset or empty, no `period` parameter is sent. -/
theorem c8_list_outbound_params (skip limit : Int) (period : Option String)
    (now : String) (o : Nat → AttemptResult)
    (hs : 0 ≤ skip) (hl1 : 1 ≤ limit) (hl2 : limit ≤ 100) :
    (list_recordings skip limit period now o).calls.map GatewayCall.endpoint =
      ["/recordings"] ∧
    (list_recordings skip limit period now o).calls.map GatewayCall.params =
      [listParams skip limit period] ∧
    (listParams skip limit period).lookup "skip" = some (.num skip) ∧
    (listParams skip limit period).lookup "limit" = some (.num limit) ∧
    (listParams skip limit period).lookup "simplified" = some (.bool true) ∧
    (∀ p, period = some p → p ≠ "" →
      (listParams skip limit period).lookup "period" = some (.str p)) ∧
    (period = none ∨ period = some "" →
      (listParams skip limit period).lookup "period" = none) := by
  have hnskip : ¬ skip < 0 := not_lt.mpr hs
  have hnlimit : ¬ (limit < 1 ∨ 100 < limit) := by omega
  refine ⟨?_, ?_, rfl, rfl, rfl, ?_, ?_⟩
  · rcases hres : (make_api_request "GET" "/recordings"
        (listParams skip limit period) DEFAULT_TIMEOUT o).result with data | e <;>
      simp [list_recordings, hnskip, hnlimit, hres]
  · rcases hres : (make_api_request "GET" "/recordings"
        (listParams skip limit period) DEFAULT_TIMEOUT o).result with data | e <;>
      simp [list_recordings, hnskip, hnlimit, hres]
  · rintro p rfl hp
    simp only [listParams, if_neg hp]
    rfl
  · rintro (rfl | rfl) <;> rfl

/-- Witness for C8 at `period = some "week"`. -/
theorem c8_list_outbound_params_witness :
    (list_recordings 0 10 (some "week") "ts" oracleBadJson).calls.map
        GatewayCall.endpoint = ["/recordings"] ∧
    (list_recordings 0 10 (some "week") "ts" oracleBadJson).calls.map
        GatewayCall.params = [listParams 0 10 (some "week")] ∧
    (listParams 0 10 (some "week")).lookup "skip" = some (.num 0) ∧
    (listParams 0 10 (some "week")).lookup "limit" = some (.num 10) ∧
    (listParams 0 10 (some "week")).lookup "simplified" =
      some (.bool true) ∧
    (∀ p, some "week" = some p → p ≠ "" →
      (listParams 0 10 (some "week")).lookup "period" = some (.str p)) ∧
    (some "week" = none ∨ some "week" = some "" →
      (listParams 0 10 (some "week")).lookup "period" = none) :=
  c8_list_outbound_params 0 10 (some "week") "ts" oracleBadJson
    (by decide) (by decide) (by decide)

/-- C1: for every invocation of either tool and every oracle behaviour,
the operation returns a JSON value to serialize (the functions below are
total, so no exception escapes to the protocol layer): either the gateway
succeeded and the output is the (possibly hint-shaped) payload, or the
output is a JSON error payload carrying an `error` label and a `message`. -/
theorem c1_tools_never_raise (skip limit : Int) (period : Option String)
    (rid now : String) (o o2 : Nat → AttemptResult) :
    (errorShaped (list_recordings skip limit period now o).output = true ∨
      (make_api_request "GET" "/recordings" (listParams skip limit period)
          DEFAULT_TIMEOUT o).result =
        .ok (list_recordings skip limit period now o).output) ∧
    (errorShaped (get_recording rid now o2).output = true ∨
      ∃ data,
        (make_api_request "GET" ("/recordings/" ++ pyStrip rid)
            [("simplified", Json.bool true)] 60 o2).result = .ok data ∧
        (get_recording rid now o2).output = injectHint data) := by
  constructor
  · by_cases h1 : skip < 0
    · left
      simp [list_recordings, h1, errorShaped, Json.lookup]
    · by_cases h2 : limit < 1 ∨ 100 < limit
      · left
        simp [list_recordings, h1, h2, errorShaped, Json.lookup]
      · rcases hres : (make_api_request "GET" "/recordings"
            (listParams skip limit period) DEFAULT_TIMEOUT o).result with data | e
        · right
          simp [list_recordings, h1, h2, hres]
        · left
          simp [list_recordings, h1, h2, hres, errorShaped, Json.lookup]
  · by_cases h1 : pyStrip rid = ""
    · left
      simp [get_recording, h1, errorShaped, Json.lookup]
    · rcases hres : (make_api_request "GET" ("/recordings/" ++ pyStrip rid)
          [("simplified", Json.bool true)] 60 o2).result with data | e
      · right
        refine ⟨data, ?_, by simp [get_recording, h1, hres]⟩
        simp [hres]
      · left
        simp [get_recording, h1, hres, errorShaped, Json.lookup]

/-- C2 (amended): on a successful `get_recording` whose payload is an
object with a `transcript` key and *no* pre-existing `_usage_hint` key,
the output is the original object with every original key-value pair
preserved unchanged and in order, and `_usage_hint` appended last. (A
pre-existing `_usage_hint` key is overwritten in place — see the
counterexample.) -/
theorem c2_usage_hint_additive (rid now : String) (o : Nat → AttemptResult)
    (entries : List (String × Json))
    (hr : pyStrip rid ≠ "")
    (hok : (make_api_request "GET" ("/recordings/" ++ pyStrip rid)
        [("simplified", Json.bool true)] 60 o).result = .ok (.obj entries))
    (ht : entries.any (fun e => e.1 == "transcript") = true)
    (hno : entries.any (fun e => e.1 == "_usage_hint") = false) :
    (get_recording rid now o).output =
      .obj (entries ++ [("_usage_hint", .str usageHintText)]) := by
  simp [get_recording, hr, hok, injectHint, ht, dictInsert, hno]

/-- Oracle: success whose payload holds an `id` and a `transcript` key. -/
def oracleTranscript : Nat → AttemptResult := fun _ =>
  .success ⟨"\x7b\"id\":\"r1\",\"transcript\":[]\x7d",
    some (.obj [("id", .str "r1"), ("transcript", .arr [])])⟩

/-- Witness for C2 (amended): the spec's own example payload
`{"id":"r1","transcript":[...]}` gains `_usage_hint` with both original
keys intact. -/
theorem c2_usage_hint_additive_witness :
    (get_recording "r1" "ts" oracleTranscript).output =
      .obj ([("id", .str "r1"), ("transcript", .arr [])] ++
        [("_usage_hint", .str usageHintText)]) :=
  c2_usage_hint_additive "r1" "ts" oracleTranscript
    [("id", .str "r1"), ("transcript", .arr [])] (by decide) rfl rfl rfl

/-- Oracle: success whose payload already contains a `_usage_hint` key
next to `transcript`. -/
def oraclePreexistingHint : Nat → AttemptResult := fun _ =>
  .success ⟨"\x7b\"transcript\":[],\"_usage_hint\":\"old hint\"\x7d",
    some (.obj [("transcript", .arr []), ("_usage_hint", .str "old hint")])⟩

/-- C2 counterexample: when the payload already carries `_usage_hint`, the
dict assignment overwrites its value in place, so the original key-value
pair `("_usage_hint", "old hint")` is *not* preserved in the output. -/
theorem c2_counterexample :
    (get_recording "r1" "ts" oraclePreexistingHint).output.lookup
        "_usage_hint" = some (.str usageHintText) ∧
    Json.str usageHintText ≠ Json.str "old hint" := by
  refine ⟨rfl, ?_⟩
  simp [usageHintText]

end HuddleMCP
